import Mathlib

/-!
Shallow embedding of `src/socketio.js` (the class `socketIo.Socket`, a
Closure-library wrapper around the socket.io client), together with proofs
checking the natural-language specification of the repository against it.

Modelling conventions:
* JavaScript values reaching the modelled code are `JSVal`: `undefined`,
  `null`, booleans, and the opaque collaborator session object.
* Mutation is explicit state passing: each method maps the pair
  (class-level state, instance state) to a `Step` holding the new states,
  the list of observable collaborator/DOM actions performed, and the
  JavaScript exception that escaped, if any.  As in JavaScript, an
  exception does not roll back mutations made before the throwing point.
* The static members `imported_` and `wrapperMap_` and the global
  entry point `goog.global.io` live in `GlobalState`; per-instance members
  live in `Inst`.  String-keyed objects are association lists; keys
  inherited from `Object.prototype` are outside the model.
* A wrapper closure produced by `createWrapper` is represented by the data
  it captures (the event type and the creating instance, identified by its
  `id` field); its behaviour when the collaborator invokes it is the pure
  function `wrapperEvent` / `applyWrapper`.
-/

namespace Socket

/-- The collaborator session object (`SocketNamespace`); the embedding only
needs the transport flag that `isOpen` reads via
`this.socket_['socket']['open']`. -/
structure Handle where
  socketOpen : Bool
deriving DecidableEq, Repr

/-- JavaScript values that can reach the places this embedding models. -/
inductive JSVal where
  | undef
  | null
  | bool (b : Bool)
  | obj (h : Handle)
deriving DecidableEq, Repr

/-- JavaScript truthiness for the values of `JSVal`. -/
def truthy : JSVal → Bool
  | .bool b => b
  | .obj _ => true
  | _ => false

/-- Embeds `goog.isDef`: defined means not `undefined`; in particular
`null` counts as defined. -/
def isDef : JSVal → Bool
  | .undef => false
  | _ => true

/-- Embeds `goog.isDefAndNotNull`. -/
def isDefAndNotNull : JSVal → Bool
  | .undef => false
  | .null => false
  | _ => true

/-- JavaScript string coercion, as used by the concatenation in
`Error('Cannot find io: ' + io)`. -/
def jsToString : JSVal → String
  | .undef => "undefined"
  | .null => "null"
  | .bool b => if b then "true" else "false"
  | .obj _ => "[object Object]"

/-- Embeds the enum `socketIo.Socket.EventType` (value "connect"). -/
def EventType.CONNECT : String := "connect"

/-- Enum value "disconnect". -/
def EventType.DISCONNECT : String := "disconnect"

/-- Enum value "connect_failed". -/
def EventType.CONNECT_FAILED : String := "connect_failed"

/-- Enum value "error". -/
def EventType.ERROR : String := "error"

/-- Enum value "message". -/
def EventType.MESSAGE : String := "message"

/-- Payload carried in the `data` field of a canonical event: either a
single value (the `reason` argument) or the converted `arguments` list. -/
inductive EvtData where
  | single (v : JSVal)
  | args (vs : List JSVal)
deriving DecidableEq, Repr

/-- A canonical event record dispatched on the wrapped event target; fields
absent from the JavaScript object literal are `none`. -/
structure Event where
  type : String
  message : Option JSVal
  data : Option EvtData
deriving DecidableEq, Repr

/-- The data captured by a wrapper closure returned by `createWrapper`:
the event type and `that` (the creating instance, by id). -/
structure Wrapper where
  ty : String
  owner : Nat
deriving DecidableEq, Repr

/-- Embeds the `switch` in `createWrapper`: the event object the wrapper
built for `ty` dispatches when the collaborator invokes it with argument
list `args`.  A declared parameter (`msg`, `reason`) reads the first
argument, `undefined` when missing; the `default` arm converts the whole
`arguments` object with `goog.array.toArray`. -/
def wrapperEvent (ty : String) (args : List JSVal) : Event :=
  if ty = EventType.MESSAGE then
    { type := ty, message := some (args.headD .undef), data := none }
  else if ty = EventType.CONNECT then
    { type := ty, message := none, data := none }
  else if ty = EventType.DISCONNECT ∨ ty = EventType.CONNECT_FAILED ∨
      ty = EventType.ERROR then
    { type := ty, message := none, data := some (.single (args.headD .undef)) }
  else
    { type := ty, message := none, data := some (.args args) }

/-- Observable calls into the collaborator, the DOM, or downstream
observers.  `connectCall` is the collaborator connect primitive of the
documented capability set; it is listed so that its absence from a trace is
expressible. -/
inductive Action where
  | connectCall (addr : String)
  | sendCall (msg : JSVal)
  | disconnectCall
  | emitCall (ty : String) (data : JSVal)
  | onCall (ty : String)
  | injectScript (addr : Option String)
  | dispatch (owner : Nat) (e : Event)
  | deliver (handlerId : Nat) (e : Event)
deriving DecidableEq, Repr

/-- Invoking a wrapper closure: `that.dispatchEvent(...)` on the owning
instance, with the event object built by the captured arm of the switch. -/
def applyWrapper (w : Wrapper) (args : List JSVal) : Action :=
  .dispatch w.owner (wrapperEvent w.ty args)

/-- Per-instance state of `socketIo.Socket`.  `socketOwn` is the own
`socket_` property (`none` when only the prototype default exists);
`listeners` are the observers registered on the inherited event target;
`handlerListens` counts registrations held by `handler_`. -/
structure Inst where
  id : Nat
  serverAddr : Option String
  socketOwn : Option Handle
  listeners : List (String × Nat)
  handlerListens : Nat
  handlerDisposed : Bool
deriving DecidableEq, Repr

/-- A freshly constructed instance (`new socketIo.Socket()`). -/
def instNew (id : Nat) : Inst := ⟨id, none, none, [], 0, false⟩

/-- Class-level and environment state shared by every instance: the static
members `imported_` and `wrapperMap_`, and the global `io` entry point the
bootstrap script is expected to define. -/
structure GlobalState where
  imported : Bool
  wrapperMap : List Wrapper
  ioGlobal : JSVal
deriving DecidableEq, Repr

/-- JavaScript exceptions distinguished by the embedding: a failed
`goog.asserts.assert`, a TypeError from dereferencing a missing member, and
an explicitly thrown `Error`. -/
inductive JSError where
  | assertionFailure (msg : String)
  | typeError (msg : String)
  | thrown (msg : String)
deriving DecidableEq, Repr

/-- Result of running one method: the new class and instance state, the
actions performed, and the exception that escaped, if any.  State reached
before a throw is kept. -/
structure Step where
  g : GlobalState
  inst : Inst
  trace : List Action
  err : Option JSError
deriving DecidableEq, Repr

/-- Reading `this.socket_`: the own property when present, otherwise the
prototype default `null` declared at `socketIo.Socket.prototype.socket_`. -/
def socketField (i : Inst) : JSVal :=
  match i.socketOwn with
  | some h => .obj h
  | none => .null

/-- Embeds `assertSocketExists_`:
`goog.asserts.assert(goog.isDef(this.socket_), 'This socket is not opened.')`;
the result is the assertion error when the assert fires. -/
def assertSocketExists_ (i : Inst) : Option JSError :=
  if isDef (socketField i) then none
  else some (.assertionFailure "This socket is not opened.")

/-- Embeds `send`: assert, then `this.socket_['send'](message)`.  Reading a
member of `null` throws a TypeError. -/
def send (g : GlobalState) (i : Inst) (msg : JSVal) : Step :=
  match assertSocketExists_ i with
  | some e => ⟨g, i, [], some e⟩
  | none =>
    match i.socketOwn with
    | some _ => ⟨g, i, [.sendCall msg], none⟩
    | none => ⟨g, i, [], some (.typeError "Cannot read properties of null (reading send)")⟩

/-- Embeds `close`: assert, then `this.socket_['disconnect']()`. -/
def close (g : GlobalState) (i : Inst) : Step :=
  match assertSocketExists_ i with
  | some e => ⟨g, i, [], some e⟩
  | none =>
    match i.socketOwn with
    | some _ => ⟨g, i, [.disconnectCall], none⟩
    | none => ⟨g, i, [], some (.typeError "Cannot read properties of null (reading disconnect)")⟩

/-- The argument of `dispatchEventOnServer`. -/
structure ServerEvent where
  type : String
  data : JSVal
deriving DecidableEq, Repr

/-- Embeds `dispatchEventOnServer`: assert, then
`this.socket_['emit'](e.type, e.data)`. -/
def dispatchEventOnServer (g : GlobalState) (i : Inst) (e : ServerEvent) : Step :=
  match assertSocketExists_ i with
  | some err => ⟨g, i, [], some err⟩
  | none =>
    match i.socketOwn with
    | some _ => ⟨g, i, [.emitCall e.type e.data], none⟩
    | none => ⟨g, i, [], some (.typeError "Cannot read properties of null (reading emit)")⟩

/-- Embeds `addCustomEventListener_`: assert, then
`this.socket_['on'](type, handler)`. -/
def addCustomEventListener_ (g : GlobalState) (i : Inst) (ty : String) : Step :=
  match assertSocketExists_ i with
  | some e => ⟨g, i, [], some e⟩
  | none =>
    match i.socketOwn with
    | some _ => ⟨g, i, [.onCall ty], none⟩
    | none => ⟨g, i, [], some (.typeError "Cannot read properties of null (reading on)")⟩

/-- Embeds the guard `type in wrapperMap` over the own keys of the
class-level map `socketIo.Socket.wrapperMap_`. -/
def hasWrapper (g : GlobalState) (ty : String) : Bool :=
  g.wrapperMap.any (fun w => w.ty == ty)

/-- Embeds `createWrapper` as the data the returned closure captures. -/
def createWrapper (i : Inst) (ty : String) : Wrapper := ⟨ty, i.id⟩

/-- Base-class observer registration
(`goog.base(this, 'addEventListener', type, handler, ...)`), backed by
`goog.events.listen`, which deduplicates an identical (type, handler) pair
and otherwise appends to the listeners of that type. -/
def addListenerBase (i : Inst) (ty : String) (handlerId : Nat) : Inst :=
  if (ty, handlerId) ∈ i.listeners then i
  else { i with listeners := i.listeners ++ [(ty, handlerId)] }

/-- Embeds the `addEventListener` override.  For a type not in the
class-level map it stores a newly created wrapper there and then calls
`this.addCustomEventListener(type, wrapper)`; no member of that name exists
on the instance or its prototype chain (the file defines
`addCustomEventListener_`, and the inherited event target has no such
member), so the call throws a TypeError before the base registration line
is reached.  For a type already in the map only the base registration
runs. -/
def addEventListener (g : GlobalState) (i : Inst) (ty : String) (handlerId : Nat) : Step :=
  if hasWrapper g ty then
    ⟨g, addListenerBase i ty handlerId, [], none⟩
  else
    let g1 : GlobalState := { g with wrapperMap := g.wrapperMap ++ [createWrapper i ty] }
    ⟨g1, i, [], some (.typeError "this.addCustomEventListener is not a function")⟩

/-- Embeds `handleScriptLoad_`: reads `goog.global['io']` and throws when it
is undefined or null; otherwise the function body does nothing further in
this file. -/
def handleScriptLoad_ (g : GlobalState) (i : Inst) : Step :=
  if isDefAndNotNull g.ioGlobal then ⟨g, i, [], none⟩
  else ⟨g, i, [], some (.thrown ("Cannot find io: " ++ jsToString g.ioGlobal))⟩

/-- Embeds `importSocketIo`: when the static `imported_` flag is set the
load handler is called at once and nothing else happens; otherwise a script
element pointing at the stored server address is created, the load listener
is registered on `handler_`, the element is appended to the document, and
the flag is set to true. -/
def importSocketIo (g : GlobalState) (i : Inst) : Step :=
  if g.imported then handleScriptLoad_ g i
  else
    ⟨{ g with imported := true },
     { i with handlerListens := i.handlerListens + 1 },
     [.injectScript i.serverAddr], none⟩

/-- Embeds `open`: stores the url in `serverAddr_`, then imports the
client script. -/
def «open» (g : GlobalState) (i : Inst) (url : String) : Step :=
  importSocketIo g { i with serverAddr := some url }

/-- Embeds `isOpen`: the value of the expression
`socketIo.Socket.imported_ && this.socket_ && this.socket_['socket']['open']`;
a JavaScript and-chain returns its first falsy operand, so the result is a
value, not necessarily a boolean. -/
def isOpen (g : GlobalState) (i : Inst) : JSVal :=
  if g.imported then
    match i.socketOwn with
    | none => .null
    | some h => .bool h.socketOpen
  else .bool false

/-- Embeds `disposeInternal`: base teardown (the inherited event target
removes all registered observers), `close` when `isOpen()` is truthy,
dispose of `handler_` (releasing its registrations), then
`delete this.socket_`, which removes the own property so that reads fall
back to the prototype default `null`. -/
def disposeInternal (g : GlobalState) (i : Inst) : Step :=
  let i1 : Inst := { i with listeners := [] }
  let s2 : Step := if truthy (isOpen g i1) then close g i1 else ⟨g, i1, [], none⟩
  match s2.err with
  | some e => ⟨s2.g, s2.inst, s2.trace, some e⟩
  | none =>
    let i3 : Inst := { s2.inst with handlerListens := 0, handlerDisposed := true }
    ⟨s2.g, { i3 with socketOwn := none }, s2.trace, none⟩

/-- Dispatching a canonical event to the instance's observers: the
inherited event target fires, in order, the listeners registered for the
event's type. -/
def fireListeners (i : Inst) (e : Event) : List Action :=
  (i.listeners.filter (fun p => p.1 == e.type)).map (fun p => .deliver p.2 e)

/-- The public operations of the class, for stating properties of
arbitrary call sequences. -/
inductive OpCall where
  | callOpen (url : String)
  | callScriptLoad
  | callAddEventListener (ty : String) (handlerId : Nat)
  | callSend (msg : JSVal)
  | callClose
  | callDispatchOnServer (ty : String) (data : JSVal)
  | callDispose
deriving DecidableEq, Repr

/-- Running one public operation on one instance. -/
def runOp (g : GlobalState) (i : Inst) (op : OpCall) : Step :=
  match op with
  | .callOpen url => «open» g i url
  | .callScriptLoad => handleScriptLoad_ g i
  | .callAddEventListener ty h => addEventListener g i ty h
  | .callSend msg => send g i msg
  | .callClose => close g i
  | .callDispatchOnServer ty d => dispatchEventOnServer g i ⟨ty, d⟩
  | .callDispose => disposeInternal g i

/-- Class-level state after a sequence of public operations, each performed
by an arbitrary instance. -/
def runSeq (g : GlobalState) (l : List (Inst × OpCall)) : GlobalState :=
  l.foldl (fun acc p => (runOp acc p.1 p.2).g) g

/-- The event types present in the class-level wrapper map. -/
def wrapperTypes (g : GlobalState) : List String :=
  g.wrapperMap.map Wrapper.ty

/-- A never-touched class state: nothing imported, empty wrapper map, no
global entry point. -/
def gFresh : GlobalState := ⟨false, [], JSVal.null⟩

/-- A class state in which the bootstrap script has defined the global
entry point. -/
def gIoPresent : GlobalState := ⟨false, [], JSVal.obj ⟨false⟩⟩

/-- A fresh instance. -/
def iFresh : Inst := instNew 0

/-- An instance holding a connection handle whose transport is open. -/
def iConn : Inst := { instNew 0 with socketOwn := some ⟨true⟩ }

/-- The scripted open scenario: `open` on a fresh instance with the entry
point already available in the environment. -/
def openStep : Step := «open» gIoPresent iFresh "http://host:1234"

/-- Simulated script-load completion after `openStep`. -/
def loadStep : Step := handleScriptLoad_ openStep.g openStep.inst

/-- First registration of the custom type "chat" on instance 0. -/
def regStep1 : Step := addEventListener gIoPresent (instNew 0) "chat" 1

/-- Re-registration of "chat" on the same instance with a second handler. -/
def regStep2 : Step := addEventListener regStep1.g regStep1.inst "chat" 2

/-- Registration of "chat" on a different instance, number 1. -/
def regStep3 : Step := addEventListener regStep2.g (instNew 1) "chat" 3

/-- First registration of the unseen type "chat" on a fresh class state. -/
def regFreshStep : Step := addEventListener gFresh iFresh "chat" 1

/-- C1: on a never-opened instance the fail-fast assert passes — the field
reads as `null`, which `goog.isDef` counts as defined — and `send`,
`close`, `dispatchEventOnServer` and collaborator-side listener
registration each throw a TypeError dereferencing `null`, not the
"socket is not opened" assertion error, while making no collaborator call;
once a handle exists each operation is the documented pass-through to the
collaborator's send, disconnect, emit and on. -/
theorem noHandle_ops_typeError :
    (send gFresh iFresh (JSVal.bool true)).err
      = some (JSError.typeError "Cannot read properties of null (reading send)") ∧
    (send gFresh iFresh (JSVal.bool true)).trace = [] ∧
    (close gFresh iFresh).err
      = some (JSError.typeError "Cannot read properties of null (reading disconnect)") ∧
    (close gFresh iFresh).trace = [] ∧
    (dispatchEventOnServer gFresh iFresh ⟨"chat", JSVal.null⟩).err
      = some (JSError.typeError "Cannot read properties of null (reading emit)") ∧
    (dispatchEventOnServer gFresh iFresh ⟨"chat", JSVal.null⟩).trace = [] ∧
    (addCustomEventListener_ gFresh iFresh "chat").err
      = some (JSError.typeError "Cannot read properties of null (reading on)") ∧
    (addCustomEventListener_ gFresh iFresh "chat").trace = [] ∧
    send gFresh iConn (JSVal.bool true)
      = ⟨gFresh, iConn, [Action.sendCall (JSVal.bool true)], none⟩ ∧
    close gFresh iConn = ⟨gFresh, iConn, [Action.disconnectCall], none⟩ ∧
    dispatchEventOnServer gFresh iConn ⟨"chat", JSVal.null⟩
      = ⟨gFresh, iConn, [Action.emitCall "chat" JSVal.null], none⟩ ∧
    addCustomEventListener_ gFresh iConn "chat"
      = ⟨gFresh, iConn, [Action.onCall "chat"], none⟩ := by
  decide

/-- C2: in the scripted scenario — `open` on a fresh instance, then the
load handler with the entry point present — the handler completes without
error but obtains no handle, makes no collaborator connect call, and
registers no wrapper: the load handler of this file only checks the entry
point. -/
theorem scriptLoad_noConnect_noHandle :
    openStep.trace = [Action.injectScript (some "http://host:1234")] ∧
    loadStep.err = none ∧
    loadStep.inst.socketOwn = none ∧
    loadStep.g.wrapperMap = [] ∧
    loadStep.trace = [] ∧
    Action.connectCall "http://host:1234" ∉ openStep.trace ++ loadStep.trace := by
  decide

/-- C4: the first registration for an unseen type caches a wrapper in the
class-level map and then calls `this.addCustomEventListener`, a member that
does not exist (the file defines `addCustomEventListener_`), so a TypeError
is thrown before any collaborator-side install and before the base observer
registration. -/
theorem addEventListener_unseen_typeError :
    regFreshStep.err
      = some (JSError.typeError "this.addCustomEventListener is not a function") ∧
    regFreshStep.g.wrapperMap = [⟨"chat", 0⟩] ∧
    regFreshStep.inst.listeners = [] ∧
    regFreshStep.trace = [] := by
  decide

/-- C5: the wrapper `createWrapper` returns for a type re-emits a canonical
event of exactly the documented shape: for MESSAGE the message argument is
carried in the `message` field; for CONNECT only the type is carried; for
DISCONNECT, CONNECT_FAILED and ERROR the reason argument is carried in
`data`; for any other type the whole argument sequence is carried in
`data`. -/
theorem createWrapper_shapes (m r : JSVal) (rest args : List JSVal) (ty : String)
    (h1 : ty ≠ EventType.MESSAGE) (h2 : ty ≠ EventType.CONNECT)
    (h3 : ty ≠ EventType.DISCONNECT) (h4 : ty ≠ EventType.CONNECT_FAILED)
    (h5 : ty ≠ EventType.ERROR) :
    wrapperEvent EventType.MESSAGE (m :: rest)
      = { type := EventType.MESSAGE, message := some m, data := none } ∧
    wrapperEvent EventType.CONNECT args
      = { type := EventType.CONNECT, message := none, data := none } ∧
    wrapperEvent EventType.DISCONNECT (r :: rest)
      = { type := EventType.DISCONNECT, message := none,
          data := some (.single r) } ∧
    wrapperEvent EventType.CONNECT_FAILED (r :: rest)
      = { type := EventType.CONNECT_FAILED, message := none,
          data := some (.single r) } ∧
    wrapperEvent EventType.ERROR (r :: rest)
      = { type := EventType.ERROR, message := none, data := some (.single r) } ∧
    wrapperEvent ty args
      = { type := ty, message := none, data := some (.args args) } := by
  refine ⟨rfl, rfl, rfl, rfl, rfl, ?_⟩
  simp [wrapperEvent, h1, h2, h3, h4, h5]

/-- Witness for `createWrapper_shapes` at the custom type "chat". -/
theorem createWrapper_shapes_witness :
    wrapperEvent "chat" [JSVal.null]
      = { type := "chat", message := none,
          data := some (.args [JSVal.null]) } :=
  (createWrapper_shapes (JSVal.bool true) JSVal.null [] [JSVal.null] "chat"
    (by decide) (by decide) (by decide) (by decide) (by decide)).2.2.2.2.2

/-- C6, counterexample: after `open` on a fresh class state and before the
script load has completed — the instance is LOADING — `isOpen` does not
return the boolean `false`: the and-chain returns its falsy middle operand,
the `null` value of `socket_`. -/
theorem isOpen_loading_not_false :
    isOpen («open» gIoPresent (instNew 0) "http://host:1234").g
        («open» gIoPresent (instNew 0) "http://host:1234").inst
      = JSVal.null ∧
    JSVal.null ≠ JSVal.bool false := by
  decide

/-- C6 (amended): `isOpen` is a pure query of the class and instance state;
its result is truthy precisely when the import flag is set, a handle
exists, and the handle's transport flag is set; before any import the
result is the boolean `false`, while with the flag set but no handle
(LOADING) it is the falsy non-boolean `null`. -/
theorem isOpen_characterisation (g : GlobalState) (i : Inst) :
    (truthy (isOpen g i) = true ↔
      g.imported = true ∧ ∃ h, i.socketOwn = some h ∧ h.socketOpen = true) ∧
    (g.imported = false → isOpen g i = JSVal.bool false) ∧
    (g.imported = true → i.socketOwn = none → isOpen g i = JSVal.null) := by
  rcases hg : g.imported <;> rcases hs : i.socketOwn with _ | h <;>
    simp [isOpen, truthy, hg, hs]

/-- Witness for `isOpen_characterisation`: with the flag set and no handle
the query returns `null`. -/
theorem isOpen_characterisation_witness :
    isOpen ⟨true, [], JSVal.null⟩ (instNew 0) = JSVal.null :=
  (isOpen_characterisation ⟨true, [], JSVal.null⟩ (instNew 0)).2.2 rfl rfl

/-- C9: the script-load handler throws the "Cannot find io" error exactly
when the global entry point is undefined or null; it performs no
collaborator action and changes no state either way, and with the entry
point present it raises no error. -/
theorem handleScriptLoad_entryPoint (g : GlobalState) (i : Inst) :
    (isDefAndNotNull g.ioGlobal = false →
      (handleScriptLoad_ g i).err
          = some (.thrown ("Cannot find io: " ++ jsToString g.ioGlobal)) ∧
      (handleScriptLoad_ g i).trace = [] ∧
      (handleScriptLoad_ g i).g = g ∧ (handleScriptLoad_ g i).inst = i) ∧
    (isDefAndNotNull g.ioGlobal = true → (handleScriptLoad_ g i).err = none) := by
  unfold handleScriptLoad_
  rcases h : isDefAndNotNull g.ioGlobal <;> simp [h]

/-- Witness for `handleScriptLoad_entryPoint`: with `io` undefined the
handler throws. -/
theorem handleScriptLoad_entryPoint_witness :
    (handleScriptLoad_ ⟨true, [], JSVal.undef⟩ (instNew 0)).err
      = some (JSError.thrown ("Cannot find io: " ++ jsToString JSVal.undef)) :=
  ((handleScriptLoad_entryPoint ⟨true, [], JSVal.undef⟩ (instNew 0)).1 rfl).1

/-- C10: `socket_` reads as the defined value `null` — never `undefined` —
both on a fresh instance and after `disposeInternal` (deleting the own
property re-exposes the prototype default), so the `goog.isDef` assert in
`assertSocketExists_` passes on every instance state, and with no handle
present each handle-requiring operation runs past the assert into a null
dereference. -/
theorem socketField_null_assert_passes (g : GlobalState) (i : Inst)
    (msg d : JSVal) (ty : String) (hno : i.socketOwn = none) :
    socketField (instNew 7) = JSVal.null ∧
    socketField (disposeInternal g i).inst = JSVal.null ∧
    (∀ j : Inst, assertSocketExists_ j = none) ∧
    (send g i msg).err
      = some (.typeError "Cannot read properties of null (reading send)") ∧
    (close g i).err
      = some (.typeError "Cannot read properties of null (reading disconnect)") ∧
    (dispatchEventOnServer g i ⟨ty, d⟩).err
      = some (.typeError "Cannot read properties of null (reading emit)") ∧
    (addCustomEventListener_ g i ty).err
      = some (.typeError "Cannot read properties of null (reading on)") := by
  have hassert : ∀ j : Inst, assertSocketExists_ j = none := by
    intro j
    rcases hj : j.socketOwn with _ | h <;>
      simp [assertSocketExists_, socketField, isDef, hj]
  refine ⟨rfl, ?_, hassert, ?_, ?_, ?_, ?_⟩
  · rcases hg : g.imported <;> rcases hs : i.socketOwn with _ | h <;>
      simp [disposeInternal, isOpen, truthy, close, hassert, socketField, hg, hs]
    rcases hb : h.socketOpen <;> simp [hb]
  · simp [send, hassert, hno]
  · simp [close, hassert, hno]
  · simp [dispatchEventOnServer, hassert, hno]
  · simp [addCustomEventListener_, hassert, hno]

/-- Witness for `socketField_null_assert_passes` on a fresh instance. -/
theorem socketField_null_witness :
    (send gFresh (instNew 0) (JSVal.bool true)).err
      = some (JSError.typeError "Cannot read properties of null (reading send)") :=
  (socketField_null_assert_passes gFresh (instNew 0) (JSVal.bool true)
    JSVal.null "t" rfl).2.2.2.1

/-- C7: `disposeInternal` raises no error from any state — unopened,
loading, connected, closed, or already disposed; when the instance is open
it first requests collaborator disconnect; it releases the base observers
and the `handler_` registrations and removes the own `socket_` property;
and running it a second time leaves the state unchanged, performs no action
and raises no error. -/
theorem disposeInternal_safe_idempotent (g : GlobalState) (i : Inst) :
    (disposeInternal g i).err = none ∧
    (truthy (isOpen g i) = true →
      Action.disconnectCall ∈ (disposeInternal g i).trace) ∧
    (disposeInternal g i).inst.listeners = [] ∧
    (disposeInternal g i).inst.handlerListens = 0 ∧
    (disposeInternal g i).inst.socketOwn = none ∧
    disposeInternal (disposeInternal g i).g (disposeInternal g i).inst
      = ⟨(disposeInternal g i).g, (disposeInternal g i).inst, [], none⟩ := by
  rcases hg : g.imported <;> rcases hs : i.socketOwn with _ | h <;>
    simp [disposeInternal, isOpen, truthy, close, assertSocketExists_,
      socketField, isDef, hg, hs]
  rcases hb : h.socketOpen <;>
    simp [disposeInternal, isOpen, truthy, close, assertSocketExists_,
      socketField, isDef, hg, hs, hb]

/-- Witness for `disposeInternal_safe_idempotent` from a connected state:
the teardown requests collaborator disconnect. -/
theorem disposeInternal_safe_idempotent_witness :
    Action.disconnectCall
      ∈ (disposeInternal ⟨true, [], JSVal.null⟩ iConn).trace :=
  (disposeInternal_safe_idempotent ⟨true, [], JSVal.null⟩ iConn).2.1 (by decide)

/-- C8: the class-level import flag is shared state of `GlobalState`, no
public operation ever resets it (it only transitions from false to true),
and once it is set a further `open` injects no script element, performs no
action at all, and runs the load-completion handler immediately on the
instance with the freshly stored address. -/
theorem imported_monotone_and_shortcut (g : GlobalState) (i : Inst)
    (op : OpCall) (url : String) (him : g.imported = true) :
    (runOp g i op).g.imported = true ∧
    «open» g i url = handleScriptLoad_ g { i with serverAddr := some url } ∧
    («open» g i url).trace = [] := by
  refine ⟨?_, ?_, ?_⟩
  · cases op with
    | callOpen u =>
      simp [runOp, «open», importSocketIo, him, handleScriptLoad_]
      split <;> simp [him]
    | callScriptLoad =>
      simp [runOp, handleScriptLoad_]
      split <;> simp [him]
    | callAddEventListener ty h =>
      simp [runOp, addEventListener]
      split <;> simp [him]
    | callSend msg =>
      rcases hs : i.socketOwn with _ | h <;>
        simp [runOp, send, assertSocketExists_, socketField, isDef, hs, him]
    | callClose =>
      rcases hs : i.socketOwn with _ | h <;>
        simp [runOp, close, assertSocketExists_, socketField, isDef, hs, him]
    | callDispatchOnServer ty d =>
      rcases hs : i.socketOwn with _ | h <;>
        simp [runOp, dispatchEventOnServer, assertSocketExists_, socketField,
          isDef, hs, him]
    | callDispose =>
      rcases hs : i.socketOwn with _ | h <;>
        simp [runOp, disposeInternal, isOpen, truthy, close, assertSocketExists_,
          socketField, isDef, hs, him]
      rcases hb : h.socketOpen <;> simp [hb, him]
  · simp [«open», importSocketIo, him]
  · simp [«open», importSocketIo, him, handleScriptLoad_]
    split <;> simp

/-- Witness for `imported_monotone_and_shortcut`: with the flag already
set, `open` performs no action and the flag stays set. -/
theorem imported_monotone_witness :
    («open» ⟨true, [], JSVal.null⟩ (instNew 0) "http://host:1234").trace = [] :=
  (imported_monotone_and_shortcut ⟨true, [], JSVal.null⟩ (instNew 0)
    OpCall.callClose "http://host:1234" rfl).2.2

/-- Only `addEventListener` touches the class-level wrapper map, and it
adds an entry only when the guard `type in wrapperMap` fails, so one public
operation never creates a duplicate type in the map. -/
theorem runOp_wrapperTypes_nodup (g : GlobalState) (i : Inst) (op : OpCall)
    (hnd : (wrapperTypes g).Nodup) : (wrapperTypes (runOp g i op).g).Nodup := by
  cases op with
  | callOpen url =>
    simp only [runOp, «open», importSocketIo, handleScriptLoad_]
    split_ifs <;> simpa [wrapperTypes] using hnd
  | callScriptLoad =>
    simp only [runOp, handleScriptLoad_]
    split_ifs <;> simpa [wrapperTypes] using hnd
  | callAddEventListener ty hid =>
    by_cases hw : hasWrapper g ty
    · simpa [runOp, addEventListener, hw] using hnd
    · have hty : ty ∉ wrapperTypes g := by
        intro hmem
        rcases List.mem_map.1 hmem with ⟨w, hw1, hw2⟩
        exact hw (List.any_eq_true.2 ⟨w, hw1, by simp [hw2]⟩)
      have hext : wrapperTypes (runOp g i (.callAddEventListener ty hid)).g
          = wrapperTypes g ++ [ty] := by
        simp [runOp, addEventListener, hw, wrapperTypes, createWrapper]
      rw [hext]
      exact hnd.append (List.nodup_singleton ty) (by simpa using hty)
  | callSend msg =>
    rcases hs : i.socketOwn with _ | h <;>
      simpa [runOp, send, assertSocketExists_, socketField, isDef, hs,
        wrapperTypes] using hnd
  | callClose =>
    rcases hs : i.socketOwn with _ | h <;>
      simpa [runOp, close, assertSocketExists_, socketField, isDef, hs,
        wrapperTypes] using hnd
  | callDispatchOnServer ty d =>
    rcases hs : i.socketOwn with _ | h <;>
      simpa [runOp, dispatchEventOnServer, assertSocketExists_, socketField,
        isDef, hs, wrapperTypes] using hnd
  | callDispose =>
    rcases hg : g.imported <;> rcases hs : i.socketOwn with _ | h <;>
      first
      | simpa [runOp, disposeInternal, isOpen, truthy, close,
          assertSocketExists_, socketField, isDef, hg, hs, wrapperTypes]
          using hnd
      | rcases hb : h.socketOpen <;>
          simpa [runOp, disposeInternal, isOpen, truthy, close,
            assertSocketExists_, socketField, isDef, hg, hs, hb, wrapperTypes]
            using hnd

/-- Along any sequence of public operations the class-level map keeps at
most one wrapper per event type. -/
theorem runSeq_wrapperTypes_nodup (l : List (Inst × OpCall)) (g : GlobalState)
    (hnd : (wrapperTypes g).Nodup) : (wrapperTypes (runSeq g l)).Nodup := by
  induction l generalizing g with
  | nil => simpa [runSeq] using hnd
  | cons p rest ih =>
    have hstep := runOp_wrapperTypes_nodup g p.1 p.2 hnd
    simpa [runSeq] using ih (runOp g p.1 p.2).g hstep

/-- C3, counterexample: the wrapper cache is the class-level
`socketIo.Socket.wrapperMap_`, shared by every instance.  After instance 0
registers "chat", the registration of "chat" by instance 1 finds the cached
wrapper owned by instance 0 and synthesizes none of its own — the map still
holds the single shared entry — so no per-instance exclusively-owned cache
exists; and of two registrations of "chat" on instance 0 only the second
observer is ever attached (the first aborts in the missing-method
TypeError before the base registration), so dispatching a "chat" event
reaches one downstream observer, not both. -/
theorem wrapperCache_shared_counterexample :
    regStep3.g.wrapperMap = [⟨"chat", 0⟩] ∧
    regStep3.err = none ∧
    regStep3.inst.listeners = [("chat", 3)] ∧
    regStep2.inst.listeners = [("chat", 2)] ∧
    fireListeners regStep2.inst ⟨"chat", none, some (.args [])⟩
      = [Action.deliver 2 ⟨"chat", none, some (.args [])⟩] := by
  decide

/-- C3 (amended): the wrapper cache is the single class-level map shared by
all instances rather than owned per instance; along any sequence of public
operations it keeps at most one wrapper per event type process-wide, and a
registration for a type already cached — by the same or a different
instance — synthesizes no wrapper, installs no collaborator-side listener
and performs only the base observer registration. -/
theorem wrapperCache_dedup (g : GlobalState) (i : Inst) (ty : String)
    (hid : Nat) (l : List (Inst × OpCall)) (hnd : (wrapperTypes g).Nodup)
    (hmem : hasWrapper g ty = true) :
    (wrapperTypes (runSeq g l)).Nodup ∧
    addEventListener g i ty hid = ⟨g, addListenerBase i ty hid, [], none⟩ := by
  exact ⟨runSeq_wrapperTypes_nodup l g hnd, by simp [addEventListener, hmem]⟩

/-- Witness for `wrapperCache_dedup`: instance 1 re-registers a type cached
by instance 0, and only the base registration runs. -/
theorem wrapperCache_dedup_witness :
    addEventListener ⟨false, [⟨"chat", 0⟩], JSVal.null⟩ (instNew 1) "chat" 9
      = ⟨⟨false, [⟨"chat", 0⟩], JSVal.null⟩,
         addListenerBase (instNew 1) "chat" 9, [], none⟩ :=
  (wrapperCache_dedup ⟨false, [⟨"chat", 0⟩], JSVal.null⟩ (instNew 1) "chat" 9
    [] (by decide) (by decide)).2

end Socket
